import Mathlib

/-!
Verification development for the `registry-mcp` package-registry utilities.

The TypeScript sources (`src/detector.ts`, `src/package-manager.ts`,
`src/search.ts`, `src/bundle-size.ts`, `src/vulnerabilities.ts`,
`src/dependencies.ts`, `src/cdn.ts`, `src/formatter.ts`, `src/mcp-server.ts`)
are shallowly embedded below.  Conventions of the embedding:

* JavaScript strings are Lean `String`s; the string operations used by the
  code (`startsWith`, `includes`, `split`, `replace`, `substring`,
  `toLowerCase`) are modelled by hand-rolled functions over `List Char`
  so that they compute by kernel reduction.
* JavaScript `undefined`-able values are `Option`s; the JS falsiness of the
  empty string and of `0` in `a || b` expressions is modelled explicitly
  by the `jsOr*` helpers.
* Each `fetch`-and-parse chain of an async function is abstracted as an
  oracle argument of type `Except String δ`: `.ok d` is a completed chain
  delivering parsed JSON data `d`, `.error e` is any thrown failure
  (network rejection, non-ok status, JSON parse error), carrying the
  message the corresponding `throw` would carry.  The surrounding
  `try/catch` of the source is the `match` on that oracle.
* JSON objects read by the code are modelled as structures whose fields
  are exactly the properties the code accesses; JSON maps whose keys are
  only counted or enumerated are association lists.
* `Number` arithmetic in `formatSize` is modelled exactly over `ℚ`, with
  `Nat.log` for `Math.floor(Math.log bytes / Math.log 1024)`.
-/

set_option linter.unusedVariables false

namespace RegistryMcp

/-- The `RegistryType` union of `src/types.ts`:
`"npm" | "jsr" | "deno" | "unknown"`. -/
inductive RegistryType where
  | npm
  | jsr
  | deno
  | unknown
deriving DecidableEq, Repr

/-- The string value of a `RegistryType`, as interpolated by the source
into messages such as `Install command generated for ${registry}`. -/
def RegistryType.toStr : RegistryType → String
  | .npm => "npm"
  | .jsr => "jsr"
  | .deno => "deno"
  | .unknown => "unknown"

/-! ## JavaScript string primitives over `List Char` -/

/-- JS `s.startsWith(pre)`. -/
def jsStartsWith (s pre : String) : Bool :=
  List.isPrefixOf pre.data s.data

/-- Substring occurrence test on character lists (JS `includes`). -/
def isInfixChars (sub : List Char) : List Char → Bool
  | [] => sub.isEmpty
  | c :: cs => List.isPrefixOf sub (c :: cs) || isInfixChars sub cs

/-- JS `s.includes(sub)`. -/
def jsIncludes (s sub : String) : Bool :=
  isInfixChars sub.data s.data

/-- JS `s.split(sep)` for a single-character separator. -/
def splitChar (sep : Char) : List Char → List (List Char)
  | [] => [[]]
  | c :: cs =>
    if c = sep then [] :: splitChar sep cs
    else
      match splitChar sep cs with
      | [] => [[c]]
      | r :: rs => (c :: r) :: rs

/-- JS `s.replace(c, "")` for a single-character pattern: removes the
first occurrence only. -/
def removeFirstChar (c : Char) : List Char → List Char
  | [] => []
  | x :: xs => if x = c then xs else x :: removeFirstChar c xs

/-- JS `s.toLowerCase()` on ASCII data. -/
def lowerChar (c : Char) : Char :=
  if c.isUpper then Char.ofNat (c.toNat + 32) else c

/-- JS `s.toLowerCase()`. -/
def toLowerStr (s : String) : String :=
  String.mk (s.data.map lowerChar)

/-! ## JavaScript `||` (falsiness) helpers -/

/-- JS `a || b` for two possibly-undefined strings: the empty string and
`undefined` both fall through. -/
def jsOrStr (a b : Option String) : Option String :=
  match a with
  | some s => if s = "" then b else some s
  | none => b

/-- JS `a || b` for a possibly-undefined string with a definite string
fallback. -/
def jsStrD (a : Option String) (dflt : String) : String :=
  match a with
  | some s => if s = "" then dflt else s
  | none => dflt

/-- JS `a || b` for a possibly-undefined number with a definite numeric
fallback (`0` is falsy). -/
def jsNatD (a : Option Nat) (dflt : Nat) : Nat :=
  match a with
  | some n => if n = 0 then dflt else n
  | none => dflt

/-- JS `a || undefined` for a possibly-undefined number (`0` becomes
`undefined`). -/
def jsNatOrUndef (a : Option Nat) : Option Nat :=
  match a with
  | some n => if n = 0 then none else some n
  | none => none

/-- JS truthiness of a possibly-undefined string. -/
def jsTruthyStr (a : Option String) : Bool :=
  match a with
  | some s => !(s = "")
  | none => false

/-! ## `src/detector.ts` -/

/-- Embedding of `detectRegistry` of `src/detector.ts`.  The nested
`if (startsWith "@" && includes "/") { if (parts.length === 2 && …) }`
of the source falls through to the later rules whenever either test
fails, so it is flattened into one conjunction here. -/
def detectRegistry (packageName : String) : RegistryType :=
  let parts := splitChar '/' packageName.data
  if jsStartsWith packageName "@" && jsIncludes packageName "/" &&
      (parts.length == 2 && List.isPrefixOf ['@'] (parts.headD [])) then
    .jsr
  else if jsIncludes packageName "deno.land" || jsIncludes packageName "nest.land" ||
      jsStartsWith packageName "https://" || jsStartsWith packageName "http://" then
    .deno
  else if jsStartsWith packageName "jsr:" then
    .jsr
  else if jsStartsWith packageName "npm:" then
    .npm
  else
    .npm

/-- The detection rules as the specification words them: rule 1 asks for
`name` starting with `@`, containing exactly one `/`, with the segment
before the `/` starting with `@`. -/
def detectRegistrySpec (name : String) : RegistryType :=
  if jsStartsWith name "@" && (name.data.count '/' == 1) &&
      List.isPrefixOf ['@'] (name.data.takeWhile (fun c => c != '/')) then
    .jsr
  else if jsIncludes name "deno.land" || jsIncludes name "nest.land" ||
      jsStartsWith name "http://" || jsStartsWith name "https://" then
    .deno
  else if jsStartsWith name "jsr:" then
    .jsr
  else if jsStartsWith name "npm:" then
    .npm
  else
    .npm

/-- Embedding of `RegistryInfo` of `src/detector.ts`. -/
structure RegistryInfo where
  name : String
  url : String
  searchUrl : String
  packageUrl : String → String

/-- Embedding of `getRegistryInfo` of `src/detector.ts`: the fixed four-entry table. -/
def getRegistryInfo (registry : RegistryType) : RegistryInfo :=
  match registry with
  | .npm =>
    { name := "npm"
      url := "https://www.npmjs.com"
      searchUrl := "https://registry.npmjs.org/-/v1/search"
      packageUrl := fun name => "https://www.npmjs.com/package/" ++ name }
  | .jsr =>
    { name := "JSR"
      url := "https://jsr.io"
      searchUrl := "https://jsr.io/api/packages"
      packageUrl := fun name => "https://jsr.io/" ++ name }
  | .deno =>
    { name := "Deno"
      url := "https://deno.land"
      searchUrl := "https://api.deno.com/v2/modules"
      packageUrl := fun name => "https://deno.land/x/" ++ name }
  | .unknown =>
    { name := "Unknown"
      url := ""
      searchUrl := ""
      packageUrl := fun _ => "" }

/-! ### Lemmas about the split/includes primitives -/

lemma splitChar_ne_nil (sep : Char) (l : List Char) : splitChar sep l ≠ [] := by
  induction l with
  | nil => simp [splitChar]
  | cons c cs ih =>
    simp only [splitChar]
    split
    · simp
    · cases h : splitChar sep cs with
      | nil => simp
      | cons r rs => simp [h]

lemma splitChar_length (sep : Char) (l : List Char) :
    (splitChar sep l).length = l.count sep + 1 := by
  induction l with
  | nil => simp [splitChar]
  | cons c cs ih =>
    simp only [splitChar]
    by_cases h : c = sep
    · simp [h, List.count_cons, ih]
    · cases hs : splitChar sep cs with
      | nil => exact absurd hs (splitChar_ne_nil sep cs)
      | cons r rs =>
        rw [hs] at ih
        simp only [if_neg h]
        simp only [List.length_cons] at ih ⊢
        rw [List.count_cons]
        simp [h, Ne.symm h] at ih ⊢
        omega

lemma splitChar_headD (sep : Char) (l : List Char) :
    (splitChar sep l).headD [] = l.takeWhile (fun c => c != sep) := by
  induction l with
  | nil => simp [splitChar]
  | cons c cs ih =>
    simp only [splitChar]
    by_cases h : c = sep
    · simp [h, List.takeWhile_cons]
    · cases hs : splitChar sep cs with
      | nil => exact absurd hs (splitChar_ne_nil sep cs)
      | cons r rs =>
        rw [hs] at ih
        simp only [if_neg h, List.takeWhile_cons]
        simp only [List.headD_cons] at ih
        simp [h, ih]

lemma isInfixChars_single_iff (c : Char) (l : List Char) :
    isInfixChars [c] l = true ↔ c ∈ l := by
  induction l with
  | nil => simp [isInfixChars, List.isEmpty]
  | cons x xs ih =>
    simp only [isInfixChars, List.isPrefixOf, Bool.or_eq_true, Bool.and_eq_true, ih,
      List.mem_cons]
    constructor
    · rintro (⟨h, -⟩ | h)
      · exact Or.inl (by simpa using h)
      · exact Or.inr h
    · rintro (h | h)
      · exact Or.inl ⟨by simpa using h, by simp [List.isPrefixOf]⟩
      · exact Or.inr h

lemma includes_slash_of_count (name : String)
    (h : (name.data.count '/' == 1) = true) : jsIncludes name "/" = true := by
  have hc : name.data.count '/' = 1 := by simpa using h
  have hmem : '/' ∈ name.data := by
    by_contra hnot
    rw [List.count_eq_zero.mpr hnot] at hc
    omega
  have hdata : ("/" : String).data = ['/'] := rfl
  rw [jsIncludes, hdata, isInfixChars_single_iff]
  exact hmem

lemma detect_cond1 (name : String) :
    (jsStartsWith name "@" && jsIncludes name "/" &&
      ((splitChar '/' name.data).length == 2 &&
        List.isPrefixOf ['@'] ((splitChar '/' name.data).headD []))) =
    (jsStartsWith name "@" && (name.data.count '/' == 1) &&
      List.isPrefixOf ['@'] (name.data.takeWhile (fun c => c != '/'))) := by
  rw [splitChar_headD]
  have hbeq : ∀ n : Nat, (n + 1 == 2) = (n == 1) := by
    intro n
    rcases eq_or_ne n 1 with h | h
    · subst h; rfl
    · have h1 : (n == 1) = false := by simpa using h
      have h2 : (n + 1 == 2) = false := by
        have : n + 1 ≠ 2 := by omega
        simpa using this
      rw [h1, h2]
  have hlen : ((splitChar '/' name.data).length == 2) = (name.data.count '/' == 1) := by
    rw [splitChar_length, hbeq]
  rw [hlen]
  cases hC : (name.data.count '/' == 1) with
  | false => simp [hC]
  | true =>
    have hI := includes_slash_of_count name hC
    simp [hI]

lemma detect_cond2 (name : String) :
    (jsIncludes name "deno.land" || jsIncludes name "nest.land" ||
      jsStartsWith name "https://" || jsStartsWith name "http://") =
    (jsIncludes name "deno.land" || jsIncludes name "nest.land" ||
      jsStartsWith name "http://" || jsStartsWith name "https://") := by
  cases jsIncludes name "deno.land" <;> cases jsIncludes name "nest.land" <;>
    cases jsStartsWith name "https://" <;> cases jsStartsWith name "http://" <;> rfl

/-! ## `src/types.ts` and `src/search.ts` -/

/-- Embedding of `PackageInfo` of `src/types.ts`.  JSON maps are association lists. -/
structure PackageInfo where
  name : String
  version : Option String
  description : Option String
  author : Option String
  license : Option String
  repository : Option String
  homepage : Option String
  keywords : Option (List String)
  registry : RegistryType
  registryUrl : Option String
  publishedAt : Option String
  downloads : Option Nat
  dependencies : Option (List (String × String))
deriving DecidableEq, Repr

/-- Embedding of `SearchResult` of `src/types.ts`. -/
structure SearchResult where
  query : String
  registry : RegistryType
  packages : List PackageInfo
  total : Option Nat
  error : Option String
deriving DecidableEq, Repr

/-- One element of `data.objects` in the npm search response, holding
exactly the properties `searchNpm` reads from the untyped JSON. -/
structure NpmPkgJson where
  name : String
  version : Option String
  description : Option String
  authorName : Option String
  publisherUsername : Option String
  license : Option String
  linksRepository : Option String
  repositoryUrl : Option String
  linksNpm : Option String
  homepage : Option String
  keywords : Option (List String)
  date : Option String
  downloadsTotal : Option Nat
  dependencies : Option (List (String × String))
deriving DecidableEq, Repr

/-- The npm search response body read by `searchNpm`. -/
structure NpmSearchData where
  objects : Option (List NpmPkgJson)
  total : Option Nat
deriving DecidableEq, Repr

/-- Embedding of `searchNpm` of `src/search.ts`.  `fetched` abstracts the
fetch-check-parse chain of the `try` block; `.error` is any throw,
caught by the `catch` branch. -/
def searchNpm (query : String) (limit : Nat) (fetched : Except String NpmSearchData) :
    SearchResult :=
  match fetched with
  | .ok data =>
    let registryInfo := getRegistryInfo .npm
    let packages := (data.objects.getD []).map fun pkg =>
      { name := pkg.name
        version := pkg.version
        description := pkg.description
        author := jsOrStr pkg.authorName pkg.publisherUsername
        license := pkg.license
        repository := jsOrStr pkg.linksRepository pkg.repositoryUrl
        homepage := jsOrStr pkg.linksNpm pkg.homepage
        keywords := pkg.keywords
        registry := RegistryType.npm
        registryUrl := some (registryInfo.packageUrl pkg.name)
        publishedAt := pkg.date
        downloads := some (jsNatD pkg.downloadsTotal 0)
        dependencies := pkg.dependencies : PackageInfo }
    { query := query, registry := .npm, packages := packages,
      total := data.total, error := none }
  | .error e =>
    { query := query, registry := .npm, packages := [], total := none,
      error := some e }

/-- One element of `data.items` in the JSR search response. -/
structure JsrPkgJson where
  scope : Option String
  name : Option String
  latestVersion : Option String
  description : Option String
  updatedAt : Option String
  keywords : Option (List String)
deriving DecidableEq, Repr

/-- The JSR search response body read by `searchJsr`. -/
structure JsrSearchData where
  items : Option (List JsrPkgJson)
  total : Option Nat
deriving DecidableEq, Repr

/-- Embedding of `searchJsr` of `src/search.ts`. -/
def searchJsr (query : String) (limit : Nat) (fetched : Except String JsrSearchData) :
    SearchResult :=
  match fetched with
  | .ok data =>
    let registryInfo := getRegistryInfo .jsr
    let packages := (data.items.getD []).map fun pkg =>
      let scope := jsStrD pkg.scope ""
      let name0 := jsStrD pkg.name ""
      let fullName := if scope = "" then name0 else "@" ++ scope ++ "/" ++ name0
      { name := fullName
        version := pkg.latestVersion
        description := pkg.description
        author := none
        license := none
        repository := none
        homepage := none
        keywords := pkg.keywords
        registry := RegistryType.jsr
        registryUrl := some (registryInfo.packageUrl fullName)
        publishedAt := pkg.updatedAt
        downloads := none
        dependencies := none : PackageInfo }
    { query := query, registry := .jsr, packages := packages,
      total := data.total, error := none }
  | .error e =>
    { query := query, registry := .jsr, packages := [], total := none,
      error := some e }

/-- One element of `data.data` in the Deno search response. -/
structure DenoPkgJson where
  name : String
  latestVersion : Option String
  description : Option String
  owner : Option String
  repository : Option String
  homepage : Option String
  updatedAt : Option String
  starCount : Option Nat
deriving DecidableEq, Repr

/-- The Deno search response body read by `searchDeno`. -/
structure DenoSearchData where
  data : Option (List DenoPkgJson)
  total : Option Nat
deriving DecidableEq, Repr

/-- Embedding of `searchDeno` of `src/search.ts`. -/
def searchDeno (query : String) (limit : Nat) (fetched : Except String DenoSearchData) :
    SearchResult :=
  match fetched with
  | .ok data =>
    let registryInfo := getRegistryInfo .deno
    let packages := (data.data.getD []).map fun pkg =>
      { name := pkg.name
        version := pkg.latestVersion
        description := pkg.description
        author := pkg.owner
        license := none
        repository := pkg.repository
        homepage := pkg.homepage
        keywords := none
        registry := RegistryType.deno
        registryUrl := some (registryInfo.packageUrl pkg.name)
        publishedAt := pkg.updatedAt
        downloads := pkg.starCount
        dependencies := none : PackageInfo }
    { query := query, registry := .deno, packages := packages,
      total := data.total, error := none }
  | .error e =>
    { query := query, registry := .deno, packages := [], total := none,
      error := some e }

/-- Embedding of `search` of `src/search.ts`: registry dispatch with auto-detection;
the `default` switch arm falls back to `searchNpm`. -/
def search (query : String) (limit : Nat) (registry : Option RegistryType)
    (fetchedNpm : Except String NpmSearchData)
    (fetchedJsr : Except String JsrSearchData)
    (fetchedDeno : Except String DenoSearchData) : SearchResult :=
  let reg := match registry with
    | some r => r
    | none => detectRegistry query
  match reg with
  | .npm => searchNpm query limit fetchedNpm
  | .jsr => searchJsr query limit fetchedJsr
  | .deno => searchDeno query limit fetchedDeno
  | .unknown => searchNpm query limit fetchedNpm

/-- Embedding of `searchAll` of `src/search.ts`: `Promise.all` over the three
registry searches, each of which catches its own failures, so the
combined promise never rejects and always delivers all three results
in npm, jsr, deno order. -/
def searchAll (query : String) (limit : Nat)
    (fetchedNpm : Except String NpmSearchData)
    (fetchedJsr : Except String JsrSearchData)
    (fetchedDeno : Except String DenoSearchData) : List SearchResult :=
  [searchNpm query limit fetchedNpm,
   searchJsr query limit fetchedJsr,
   searchDeno query limit fetchedDeno]

/-! ## `src/package-manager.ts` -/

/-- Embedding of `PackageManagerResult` of `src/package-manager.ts`. -/
structure PackageManagerResult where
  success : Bool
  message : String
  registry : RegistryType
  command : Option String
  error : Option String
deriving DecidableEq, Repr

/-- Embedding of `InstallOptions` of `src/package-manager.ts`. -/
structure InstallOptions where
  packageName : String
  version : Option String
  dev : Option Bool
  registry : Option RegistryType
  workspace : Option String
deriving DecidableEq, Repr

/-- Embedding of `RemoveOptions` of `src/package-manager.ts`. -/
structure RemoveOptions where
  packageName : String
  registry : Option RegistryType
  workspace : Option String
deriving DecidableEq, Repr

/-- Embedding of `UpdateOptions` of `src/package-manager.ts`. -/
structure UpdateOptions where
  packageName : Option String
  registry : Option RegistryType
  workspace : Option String
  latest : Option Bool
deriving DecidableEq, Repr

/-- Embedding of `options.registry || (autoDetect ? detectRegistry(options.packageName) : "npm")`
shared by `getInstallCommand` and `getRemoveCommand`. -/
def resolveRegistry (optReg : Option RegistryType) (autoDetect : Bool)
    (packageName : String) : RegistryType :=
  match optReg with
  | some r => r
  | none => if autoDetect then detectRegistry packageName else .npm

/-- The JS `@version` fragment: `options.version ? "@" + options.version : ""`. -/
def versionSuffix (version : Option String) : String :=
  if jsTruthyStr version then "@" ++ version.getD "" else ""

/-- The `if (options.workspace)` prefixing shared by every builder (the
npm/unknown and other-registry arms of `getInstallCommand` build the same
string). -/
def workspacePrefixed (workspace : Option String) (command : String) : String :=
  if jsTruthyStr workspace then "cd " ++ workspace.getD "" ++ " && " ++ command
  else command

/-- The `switch (registry)` of `getInstallCommand`: the `default` arm is
the `throw` of `Unsupported registry: …`, modelled as `.error`. -/
def installSwitch (registry : RegistryType) (options : InstallOptions) :
    Except String String :=
  if registry = .npm ∨ registry = .unknown then
    .ok ("npm install " ++ options.packageName ++ versionSuffix options.version ++
      (if options.dev.getD false then " --save-dev" else " --save"))
  else if registry = .jsr then
    let base := "deno add " ++ options.packageName ++ versionSuffix options.version
    .ok (if options.dev.getD false then base ++ " --dev" else base)
  else if registry = .deno then
    .ok ("deno add " ++ options.packageName ++ versionSuffix options.version)
  else
    .error ("Unsupported registry: " ++ registry.toStr)

/-- Embedding of `getInstallCommand` of `src/package-manager.ts`. -/
def getInstallCommand (options : InstallOptions) (autoDetect : Bool) :
    PackageManagerResult :=
  let registry := resolveRegistry options.registry autoDetect options.packageName
  match installSwitch registry options with
  | .ok command =>
    { success := true
      message := "Install command generated for " ++ registry.toStr
      registry := registry
      command := some (workspacePrefixed options.workspace command)
      error := none }
  | .error e =>
    { success := false
      message := "Failed to generate install command"
      registry := registry
      command := none
      error := some e }

/-- The `switch (registry)` of `getRemoveCommand`. -/
def removeSwitch (registry : RegistryType) (packageName : String) :
    Except String String :=
  if registry = .npm ∨ registry = .unknown then
    .ok ("npm uninstall " ++ packageName)
  else if registry = .jsr ∨ registry = .deno then
    .ok ("deno remove " ++ packageName)
  else
    .error ("Unsupported registry: " ++ registry.toStr)

/-- Embedding of `getRemoveCommand` of `src/package-manager.ts`. -/
def getRemoveCommand (options : RemoveOptions) (autoDetect : Bool) :
    PackageManagerResult :=
  let registry := resolveRegistry options.registry autoDetect options.packageName
  match removeSwitch registry options.packageName with
  | .ok command =>
    { success := true
      message := "Remove command generated for " ++ registry.toStr
      registry := registry
      command := some (workspacePrefixed options.workspace command)
      error := none }
  | .error e =>
    { success := false
      message := "Failed to generate remove command"
      registry := registry
      command := none
      error := some e }

/-- Embedding of `options.registry || (options.packageName && autoDetect ? detectRegistry(...) : "npm") || "npm"`
of `getUpdateCommand`; the detected registry string is never falsy, so
the trailing `|| "npm"` is inert. -/
def resolveUpdateRegistry (optReg : Option RegistryType) (optName : Option String)
    (autoDetect : Bool) : RegistryType :=
  match optReg with
  | some r => r
  | none => if jsTruthyStr optName && autoDetect
      then detectRegistry (optName.getD "") else .npm

/-- The `switch (registry)` of `getUpdateCommand`. -/
def updateSwitch (registry : RegistryType) (options : UpdateOptions) :
    Except String String :=
  if registry = .npm ∨ registry = .unknown then
    .ok (if jsTruthyStr options.packageName then
      "npm update " ++ options.packageName.getD "" ++
        (if options.latest.getD false then " --latest" else "")
    else if options.latest.getD false then "npm update --latest" else "npm update")
  else if registry = .jsr ∨ registry = .deno then
    .ok (if jsTruthyStr options.packageName then
      "deno update " ++ options.packageName.getD "" else "deno update")
  else
    .error ("Unsupported registry: " ++ registry.toStr)

/-- Embedding of `getUpdateCommand` of `src/package-manager.ts`. -/
def getUpdateCommand (options : UpdateOptions) (autoDetect : Bool) :
    PackageManagerResult :=
  let registry := resolveUpdateRegistry options.registry options.packageName autoDetect
  match updateSwitch registry options with
  | .ok command =>
    { success := true
      message := "Update command generated for " ++ registry.toStr
      registry := registry
      command := some (workspacePrefixed options.workspace command)
      error := none }
  | .error e =>
    { success := false
      message := "Failed to generate update command"
      registry := registry
      command := none
      error := some e }

/-- The `switch (reg)` of `getCiCommand`. -/
def ciSwitch (reg : RegistryType) : Except String String :=
  if reg = .npm ∨ reg = .unknown then
    .ok "npm ci"
  else if reg = .jsr ∨ reg = .deno then
    .ok "deno cache --reload deps.ts || deno cache --reload import_map.json"
  else
    .error ("Unsupported registry: " ++ reg.toStr)

/-- Embedding of `getCiCommand` of `src/package-manager.ts` (`const reg = registry || "npm"`). -/
def getCiCommand (registry : Option RegistryType) (workspace : Option String) :
    PackageManagerResult :=
  let reg := registry.getD .npm
  match ciSwitch reg with
  | .ok command =>
    { success := true
      message := "CI command generated for " ++ reg.toStr
      registry := reg
      command := some (workspacePrefixed workspace command)
      error := none }
  | .error e =>
    { success := false
      message := "Failed to generate CI command"
      registry := reg
      command := none
      error := some e }

/-! ## `src/bundle-size.ts` -/

/-- The `size` record of `BundleSizeInfo`. -/
structure SizeInfo where
  minified : Nat
  minifiedGzipped : Nat
  minifiedBrotli : Option Nat
deriving DecidableEq, Repr

/-- Embedding of `BundleSizeInfo` of `src/bundle-size.ts`. -/
structure BundleSizeInfo where
  package : String
  version : String
  size : SizeInfo
  registry : RegistryType
  error : Option String
deriving DecidableEq, Repr

/-- The bundlephobia response body read by `getNpmBundleSize`. -/
structure BundlephobiaData where
  version : Option String
  size : Option Nat
  gzip : Option Nat
  brotli : Option Nat
deriving DecidableEq, Repr

/-- Embedding of `getNpmBundleSize` of `src/bundle-size.ts`.  The oracle absorbs the
timeout/abort logic: an expired 15s timer surfaces as `.error` with the
rethrown timeout message, like any other failure of the chain. -/
def getNpmBundleSize (packageName : String) (version : Option String)
    (fetched : Except String BundlephobiaData) : BundleSizeInfo :=
  match fetched with
  | .ok data =>
    { package := packageName
      version := jsStrD data.version (jsStrD version "latest")
      size :=
        { minified := jsNatD data.size 0
          minifiedGzipped := jsNatD data.gzip 0
          minifiedBrotli := jsNatOrUndef data.brotli }
      registry := .npm
      error := none }
  | .error e =>
    { package := packageName
      version := jsStrD version "unknown"
      size := { minified := 0, minifiedGzipped := 0, minifiedBrotli := none }
      registry := .npm
      error := some e }

/-- Embedding of `getBundleSize` of `src/bundle-size.ts`: npm/unknown delegate to the
bundlephobia path; jsr/deno return the zero-valued stub with the
explanatory error (the `default` arm is unreachable for `RegistryType`). -/
def getBundleSize (packageName : String) (version : Option String)
    (registry : Option RegistryType) (fetched : Except String BundlephobiaData) :
    BundleSizeInfo :=
  let reg := registry.getD (detectRegistry packageName)
  match reg with
  | .npm | .unknown => getNpmBundleSize packageName version fetched
  | .jsr | .deno =>
    { package := packageName
      version := jsStrD version "unknown"
      size := { minified := 0, minifiedGzipped := 0, minifiedBrotli := none }
      registry := reg
      error := some "Bundle size checking not available for JSR/Deno packages" }

/-! ## `src/vulnerabilities.ts` -/

/-- The `summary` record of `VulnerabilityResult`. -/
structure VulnSummary where
  total : Nat
  critical : Nat
  high : Nat
  moderate : Nat
  low : Nat
deriving DecidableEq, Repr

/-- Embedding of `VulnerabilityResult` of `src/vulnerabilities.ts` (the
`vulnerabilities` array is always built empty by this code, so its
element type is irrelevant to the embedding and kept abstract as
`String` identifiers). -/
structure VulnerabilityResult where
  packageName : String
  registry : RegistryType
  vulnerabilities : List String
  summary : VulnSummary
  error : Option String
deriving DecidableEq, Repr

/-- The all-zero summary literal the source repeats. -/
def zeroSummary : VulnSummary :=
  { total := 0, critical := 0, high := 0, moderate := 0, low := 0 }

/-- Embedding of `checkNpmVulnerabilities` of `src/vulnerabilities.ts`: the oracle
payload is the `response.ok` flag; a not-ok response throws
`Package not found: <name>`, caught by the `catch` branch. -/
def checkNpmVulnerabilities (packageName : String) (fetched : Except String Bool) :
    VulnerabilityResult :=
  match fetched with
  | .ok isOk =>
    if !isOk then
      { packageName := packageName, registry := .npm, vulnerabilities := [],
        summary := zeroSummary,
        error := some ("Package not found: " ++ packageName) }
    else
      { packageName := packageName, registry := .npm, vulnerabilities := [],
        summary := zeroSummary, error := none }
  | .error e =>
    { packageName := packageName, registry := .npm, vulnerabilities := [],
      summary := zeroSummary, error := some e }

/-- Embedding of `checkVulnerabilities` of `src/vulnerabilities.ts`: npm/unknown
delegate; jsr/deno return the empty result without error (the `default`
arm is unreachable for `RegistryType`). -/
def checkVulnerabilities (packageName : String) (registry : Option RegistryType)
    (fetched : Except String Bool) : VulnerabilityResult :=
  let reg := registry.getD (detectRegistry packageName)
  match reg with
  | .npm | .unknown => checkNpmVulnerabilities packageName fetched
  | .jsr | .deno =>
    { packageName := packageName, registry := reg, vulnerabilities := [],
      summary := zeroSummary, error := none }

/-! ## `src/dependencies.ts` -/

/-- One entry of `data.versions` in an npm registry package document:
the properties read by `analyzeDependencies`, `getNpmDependencyTree`
and `getPeerDependencies`. -/
structure NpmVersionData where
  name : Option String
  version : Option String
  dependencies : Option (List (String × String))
  devDependencies : Option (List (String × String))
  peerDependencies : Option (List (String × String))
  optionalDependencies : Option (List (String × String))
deriving DecidableEq, Repr

/-- An npm registry package document: `dist-tags.latest` and the
`versions` map in key insertion order. -/
structure NpmPackageDoc where
  distTagLatest : Option String
  versions : List (String × NpmVersionData)
deriving DecidableEq, Repr

/-- Embedding of `data["dist-tags"]?.latest || Object.keys(data.versions).pop()`. -/
def latestVersionKey (doc : NpmPackageDoc) : Option String :=
  jsOrStr doc.distTagLatest ((doc.versions.map Prod.fst).getLast?)

/-- Embedding of `data.versions[latestVersion]`, `undefined` when the key is absent
(or itself `undefined`). -/
def lookupVersion (doc : NpmPackageDoc) (key : Option String) :
    Option NpmVersionData :=
  key.bind fun k => doc.versions.lookup k

/-- Modelled: the message of the JS `TypeError` thrown when the code
reads a property of the `undefined` obtained from a failed
`data.versions[latestVersion]` lookup; the `catch` branch stringifies it. -/
def undefinedReadError : String :=
  "Cannot read properties of undefined"

/-- Embedding of `DependencyAnalysis` of `src/dependencies.ts`. -/
structure DependencyAnalysis where
  package : String
  registry : RegistryType
  totalDependencies : Nat
  directDependencies : Nat
  devDependencies : Nat
  peerDependencies : Nat
  optionalDependencies : Nat
  hasVulnerabilities : Bool
  largestDependencies : List (String × Nat)
  error : Option String
deriving DecidableEq, Repr

/-- The zero-count analysis record the error paths of
`analyzeDependencies` build. -/
def zeroAnalysis (packageName : String) (reg : RegistryType) (err : String) :
    DependencyAnalysis :=
  { package := packageName, registry := reg, totalDependencies := 0,
    directDependencies := 0, devDependencies := 0, peerDependencies := 0,
    optionalDependencies := 0, hasVulnerabilities := false,
    largestDependencies := [], error := some err }

/-- Embedding of `analyzeDependencies` of `src/dependencies.ts`: npm/unknown fetch the
package document and count the first-level entries of the four
dependency maps of the latest version; other registries return the
zero-count stub with an explanatory error. -/
def analyzeDependencies (packageName : String) (registry : Option RegistryType)
    (fetched : Except String NpmPackageDoc) : DependencyAnalysis :=
  let reg := registry.getD (detectRegistry packageName)
  if reg = .npm ∨ reg = .unknown then
    match fetched with
    | .ok data =>
      match lookupVersion data (latestVersionKey data) with
      | some versionData =>
        let deps := versionData.dependencies.getD []
        let devDeps := versionData.devDependencies.getD []
        let peerDeps := versionData.peerDependencies.getD []
        let optDeps := versionData.optionalDependencies.getD []
        let totalDeps := deps.length + devDeps.length + peerDeps.length +
          optDeps.length
        { package := packageName, registry := .npm,
          totalDependencies := totalDeps,
          directDependencies := deps.length,
          devDependencies := devDeps.length,
          peerDependencies := peerDeps.length,
          optionalDependencies := optDeps.length,
          hasVulnerabilities := false,
          largestDependencies := [], error := none }
      | none => zeroAnalysis packageName reg undefinedReadError
    | .error e => zeroAnalysis packageName reg e
  else
    zeroAnalysis packageName reg
      ("Dependency analysis not fully supported for " ++ reg.toStr)

/-- Embedding of `DependencyNode` of `src/dependencies.ts` (recursive; `buildTree`
only ever populates one level, with leaf children). -/
inductive DependencyNode where
  | mk (name : String) (version : Option String)
      (dependencies : Option (List DependencyNode))
      (devDependencies : Option (List DependencyNode))
      (peerDependencies : Option (List (String × String)))
      (optionalDependencies : Option (List (String × String)))

/-- The `name` field of a `DependencyNode`. -/
def DependencyNode.nodeName : DependencyNode → String
  | .mk n _ _ _ _ _ => n

/-- Embedding of `DependencyTree` of `src/dependencies.ts`. -/
structure DependencyTree where
  root : String
  registry : RegistryType
  tree : DependencyNode
  error : Option String

/-- The leaf node `{name, version: ver}` that `buildTree` maps each
dependency entry to. -/
def leafNode (nv : String × String) : DependencyNode :=
  .mk nv.1 (some nv.2) none none none none

/-- Embedding of `buildTree` of `getNpmDependencyTree`, applied to the resolved
version data. -/
def buildTree (packageName : String) (latestVersion : Option String)
    (pkgData : NpmVersionData) : DependencyNode :=
  .mk (jsStrD pkgData.name packageName)
    (jsOrStr pkgData.version latestVersion)
    (pkgData.dependencies.map fun l => l.map leafNode)
    (pkgData.devDependencies.map fun l => l.map leafNode)
    pkgData.peerDependencies
    pkgData.optionalDependencies

/-- The bare `{name, version: version || "unknown"}` node of the error
and stub branches. -/
def bareNode (packageName : String) (version : Option String) : DependencyNode :=
  .mk packageName (some (jsStrD version "unknown")) none none none none

/-- Embedding of `getNpmDependencyTree` of `src/dependencies.ts`. -/
def getNpmDependencyTree (packageName : String) (version : Option String)
    (fetched : Except String NpmPackageDoc) : DependencyTree :=
  match fetched with
  | .ok data =>
    let latestVersion := jsOrStr version (latestVersionKey data)
    match lookupVersion data latestVersion with
    | some versionData =>
      { root := packageName, registry := .npm,
        tree := buildTree packageName latestVersion versionData, error := none }
    | none =>
      { root := packageName, registry := .npm,
        tree := bareNode packageName version,
        error := some undefinedReadError }
  | .error e =>
    { root := packageName, registry := .npm,
      tree := bareNode packageName version, error := some e }

/-- Embedding of `getDependencyTree` of `src/dependencies.ts`. -/
def getDependencyTree (packageName : String) (version : Option String)
    (registry : Option RegistryType) (fetched : Except String NpmPackageDoc) :
    DependencyTree :=
  let reg := registry.getD (detectRegistry packageName)
  match reg with
  | .npm | .unknown => getNpmDependencyTree packageName version fetched
  | .jsr | .deno =>
    { root := packageName, registry := reg,
      tree := bareNode packageName version,
      error := some ("Dependency tree not fully supported for " ++ reg.toStr) }

/-- Embedding of `PeerDependencyInfo` of `src/dependencies.ts`. -/
structure PeerDependencyInfo where
  package : String
  peerDependencies : List (String × String)
  registry : RegistryType
  error : Option String
deriving DecidableEq, Repr

/-- The JSR package metadata read by the jsr branch of
`getPeerDependencies`. -/
structure JsrMeta where
  latestVersion : Option String
deriving DecidableEq, Repr

/-- The JSR version document read by the jsr branch of
`getPeerDependencies`. -/
structure JsrVerData where
  peerDependencies : Option (List (String × String))
deriving DecidableEq, Repr

/-- Embedding of `getPeerDependencies` of `src/dependencies.ts`.  the
payload of `fetchedJsrVer` is `none` for a completed but not-ok version response (the
source then falls through to the generic error-free return) and
`some d` for an ok response with body `d`. -/
def getPeerDependencies (packageName : String) (registry : Option RegistryType)
    (fetchedNpm : Except String NpmPackageDoc)
    (fetchedJsrMeta : Except String JsrMeta)
    (fetchedJsrVer : Except String (Option JsrVerData)) : PeerDependencyInfo :=
  let reg := registry.getD (detectRegistry packageName)
  if reg = .npm ∨ reg = .unknown then
    match fetchedNpm with
    | .ok data =>
      match lookupVersion data (latestVersionKey data) with
      | some versionData =>
        { package := packageName,
          peerDependencies := versionData.peerDependencies.getD [],
          registry := .npm, error := none }
      | none =>
        { package := packageName, peerDependencies := [], registry := reg,
          error := some undefinedReadError }
    | .error e =>
      { package := packageName, peerDependencies := [], registry := reg,
        error := some e }
  else if reg = .jsr then
    let parts := splitChar '/' (removeFirstChar '@' packageName.data)
    let scope := parts.headD []
    let name := match parts.get? 1 with
      | some l => if l = [] then parts.headD [] else l
      | none => parts.headD []
    match fetchedJsrMeta with
    | .ok meta =>
      match fetchedJsrVer with
      | .ok (some versionData) =>
        { package := packageName,
          peerDependencies := versionData.peerDependencies.getD [],
          registry := .jsr, error := none }
      | .ok none =>
        { package := packageName, peerDependencies := [], registry := reg,
          error := none }
      | .error e =>
        { package := packageName, peerDependencies := [], registry := reg,
          error := some e }
    | .error e =>
      { package := packageName, peerDependencies := [], registry := reg,
        error := some e }
  else
    { package := packageName, peerDependencies := [], registry := reg,
      error := none }

/-- The result record of `getOutdatedCommand`. -/
structure OutdatedCommandResult where
  command : String
  registry : RegistryType
deriving DecidableEq, Repr

/-- Embedding of `getOutdatedCommand` of `src/dependencies.ts`; its `default` arm
returns the npm command instead of throwing. -/
def getOutdatedCommand (registry : Option RegistryType) (workspace : Option String) :
    OutdatedCommandResult :=
  let reg := registry.getD .npm
  let command := match reg with
    | .npm | .unknown => "npm outdated --json"
    | .jsr | .deno => "deno outdated --json"
  { command := workspacePrefixed workspace command, registry := reg }

/-! ## `src/cdn.ts` -/

/-- Embedding of `CDNProvider` of `src/cdn.ts` (`esmSh` is `"esm.sh"`, `denoLand` is
`"deno.land"`, `jsrIo` is `"jsr.io"`). -/
inductive CDNProvider where
  | unpkg
  | jsdelivr
  | cdnjs
  | skypack
  | esmSh
  | denoLand
  | jsrIo
deriving DecidableEq, Repr

/-- The `type` field of a `CDNImport`. -/
inductive CDNImportType where
  | esm
  | umd
  | cjs
  | iife
deriving DecidableEq, Repr

/-- Embedding of `CDNImport` of `src/cdn.ts`. -/
structure CDNImport where
  provider : CDNProvider
  url : String
  type : CDNImportType
  minified : Bool
  description : String
deriving DecidableEq, Repr

/-- Embedding of `CDNInfo` of `src/cdn.ts`. -/
structure CDNInfo where
  packageName : String
  version : String
  registry : RegistryType
  imports : List CDNImport
  recommended : Option CDNImport
deriving DecidableEq, Repr

/-- The per-registry predicate of the `imports.find` picking the
recommended CDN. -/
def cdnPreferred (reg : RegistryType) (imp : CDNImport) : Bool :=
  match reg with
  | .npm | .unknown => imp.provider = .skypack || imp.provider = .esmSh
  | .jsr => imp.provider = .jsrIo
  | .deno => imp.provider = .denoLand

/-- Embedding of `imports.find(…) || imports[0]` of `generateCDNImports`: `find`
yields `undefined` when nothing matches, and `imports[0]` is
`undefined` when the list is empty. -/
def recommendPick (reg : RegistryType) (imports : List CDNImport) :
    Option CDNImport :=
  (imports.find? (cdnPreferred reg)).orElse fun _ => imports.head?

/-- The ten npm/unknown entries pushed by `generateCDNImports`, in
source push order. -/
def npmCdnEntries (pkg : String) : List CDNImport :=
  [{ provider := .unpkg, url := "https://unpkg.com/" ++ pkg, type := .esm,
     minified := false, description := "Fast, global CDN for npm packages" },
   { provider := .unpkg, url := "https://unpkg.com/" ++ pkg ++ "?module",
     type := .esm, minified := false, description := "ESM module from unpkg" },
   { provider := .unpkg, url := "https://unpkg.com/" ++ pkg ++ "/dist/index.min.js",
     type := .umd, minified := true,
     description := "Minified UMD bundle from unpkg" },
   { provider := .jsdelivr, url := "https://cdn.jsdelivr.net/npm/" ++ pkg,
     type := .esm, minified := false,
     description := "Fast, reliable CDN with npm support" },
   { provider := .jsdelivr, url := "https://cdn.jsdelivr.net/npm/" ++ pkg ++ "/+esm",
     type := .esm, minified := false, description := "ESM module from jsDelivr" },
   { provider := .jsdelivr,
     url := "https://cdn.jsdelivr.net/npm/" ++ pkg ++ "/dist/index.min.js",
     type := .umd, minified := true, description := "Minified bundle from jsDelivr" },
   { provider := .skypack, url := "https://cdn.skypack.dev/" ++ pkg, type := .esm,
     minified := true,
     description := "Optimized ESM packages with automatic bundling" },
   { provider := .skypack, url := "https://cdn.skypack.dev/pin/" ++ pkg,
     type := .esm, minified := true,
     description := "Pinned version from Skypack (stable)" },
   { provider := .esmSh, url := "https://esm.sh/" ++ pkg, type := .esm,
     minified := true, description := "Fast ESM CDN with TypeScript support" },
   { provider := .esmSh, url := "https://esm.sh/" ++ pkg ++ "?bundle", type := .esm,
     minified := true, description := "Bundled ESM from esm.sh" }]

/-- The two jsr entries pushed by `generateCDNImports` (the jsr.io path
strips a leading `@`). -/
def jsrCdnEntries (packageName ver : String) : List CDNImport :=
  let jsrPath := if jsStartsWith packageName "@"
    then String.mk (packageName.data.drop 1) else packageName
  [{ provider := .jsrIo, url := "https://jsr.io/" ++ jsrPath ++ "@" ++ ver,
     type := .esm, minified := false, description := "Direct JSR CDN import" },
   { provider := .esmSh, url := "https://esm.sh/jsr/" ++ jsrPath ++ "@" ++ ver,
     type := .esm, minified := true, description := "JSR package via esm.sh" }]

/-- The deno entries pushed by `generateCDNImports`: the verbatim
`deno.land` entry only when the name is already a full deno.land URL,
always followed by the esm.sh proxy entry. -/
def denoCdnEntries (packageName : String) : List CDNImport :=
  (if jsStartsWith packageName "https://deno.land" then
    [{ provider := .denoLand, url := packageName, type := .esm,
       minified := false, description := "Direct Deno.land import" }]
  else []) ++
  [{ provider := .esmSh, url := "https://esm.sh/" ++ packageName, type := .esm,
     minified := true, description := "Deno package via esm.sh" }]

/-- Embedding of `generateCDNImports` of `src/cdn.ts`. -/
def generateCDNImports (packageName : String) (version : Option String)
    (registry : Option RegistryType) : CDNInfo :=
  let reg := registry.getD (detectRegistry packageName)
  let ver := jsStrD version "latest"
  let pkg := if jsTruthyStr version then packageName ++ "@" ++ version.getD ""
    else packageName
  let imports :=
    (if reg = .npm ∨ reg = .unknown then npmCdnEntries pkg else []) ++
    (if reg = .jsr then jsrCdnEntries packageName ver else []) ++
    (if reg = .deno then denoCdnEntries packageName else [])
  { packageName := packageName
    version := ver
    registry := reg
    imports := imports
    recommended := recommendPick reg imports }

/-- Embedding of `getCDNImports` of `src/cdn.ts`: a direct wrapper around
`generateCDNImports`. -/
def getCDNImports (packageName : String) (version : Option String)
    (registry : Option RegistryType) : CDNInfo :=
  generateCDNImports packageName version registry

/-! ## `src/formatter.ts` (`formatSize`) -/

/-- The unit table of `formatSize`. -/
def sizeUnits : List String := ["B", "KB", "MB", "GB"]

/-- JS `Number.prototype.toFixed(2)` for the nonnegative rationals that
`formatSize` produces (the scaled value always lies in `[1, 1024)`):
round to the nearest hundredth, halves away from zero, and render with
exactly two decimal digits.  Binary floating point is idealised as exact
rational arithmetic. -/
def toFixed2 (q : ℚ) : String :=
  let cents : ℤ := ⌊q * 100 + 1 / 2⌋
  let n := cents.toNat
  let whole := n / 100
  let frac := n % 100
  toString whole ++ "." ++
    (if frac < 10 then "0" ++ toString frac else toString frac)

/-- Embedding of `formatSize` of `src/formatter.ts`:
`Math.floor(Math.log bytes / Math.log 1024)` is the exact
`Nat.log 1024 bytes` for positive byte counts, and an out-of-range unit
index renders as the string `"undefined"` (JS `${sizes[i]}`). -/
def formatSize (bytes : Nat) : String :=
  if bytes = 0 then "0 B"
  else
    let i := Nat.log 1024 bytes
    toFixed2 ((bytes : ℚ) / 1024 ^ i) ++ " " ++ sizeUnits.getD i "undefined"

/-! ## `src/mcp-server.ts` -/

/-- The `["npm","jsr","deno"].includes(lower)` membership test together
with the `as RegistryType` cast of `getDefaultRegistry`. -/
def parseRegistryName (s : String) : Option RegistryType :=
  if s = "npm" then some .npm
  else if s = "jsr" then some .jsr
  else if s = "deno" then some .deno
  else none

/-- Embedding of `getDefaultRegistry` of `src/mcp-server.ts`: reads the
`REGISTRY_MCP_PROVIDER` environment value (`env`), lowercases it, and
accepts only `npm`, `jsr`, `deno`; otherwise `null`. -/
def getDefaultRegistry (env : Option String) : Option RegistryType :=
  match env with
  | some envRegistry =>
    if envRegistry ≠ "" ∧ (parseRegistryName (toLowerStr envRegistry)).isSome then
      parseRegistryName (toLowerStr envRegistry)
    else none
  | none => none

/-- The per-tool-call registry resolution
`(args?.registry as RegistryType | undefined) || defaultRegistry || undefined`. -/
def resolveArgRegistry (argReg : Option RegistryType) (env : Option String) :
    Option RegistryType :=
  argReg.orElse fun _ => getDefaultRegistry env

/-- The `search_packages` tool handler of `src/mcp-server.ts`: it calls
`search(searchQuery, searchLimit)` with no registry argument, so the
default registry is not consulted. -/
def searchPackagesTool (env : Option String) (query : String) (limit : Nat)
    (fetchedNpm : Except String NpmSearchData)
    (fetchedJsr : Except String JsrSearchData)
    (fetchedDeno : Except String DenoSearchData) : SearchResult :=
  search query limit none fetchedNpm fetchedJsr fetchedDeno

/-- The `install` tool handler: threads the resolved registry into
`getInstallCommand`, auto-detecting only when no registry resolved. -/
def installTool (env : Option String) (packageName : String)
    (version : Option String) (dev : Option Bool) (argReg : Option RegistryType)
    (workspace : Option String) : PackageManagerResult :=
  let registry := resolveArgRegistry argReg env
  getInstallCommand
    { packageName := packageName, version := version, dev := dev,
      registry := registry, workspace := workspace }
    registry.isNone

/-- The `remove` tool handler. -/
def removeTool (env : Option String) (packageName : String)
    (argReg : Option RegistryType) (workspace : Option String) :
    PackageManagerResult :=
  let registry := resolveArgRegistry argReg env
  getRemoveCommand
    { packageName := packageName, registry := registry, workspace := workspace }
    registry.isNone

/-- The `update` tool handler. -/
def updateTool (env : Option String) (packageName : Option String)
    (argReg : Option RegistryType) (latest : Option Bool)
    (workspace : Option String) : PackageManagerResult :=
  let registry := resolveArgRegistry argReg env
  getUpdateCommand
    { packageName := packageName, registry := registry, workspace := workspace,
      latest := latest }
    registry.isNone

/-- The `ci` tool handler (`getCiCommand(registry || "npm", workspace)`). -/
def ciTool (env : Option String) (argReg : Option RegistryType)
    (workspace : Option String) : PackageManagerResult :=
  let registry := resolveArgRegistry argReg env
  getCiCommand (some (registry.getD .npm)) workspace

/-- The `check_outdated` tool handler
(`getOutdatedCommand(registry || "npm", workspace)`). -/
def outdatedTool (env : Option String) (argReg : Option RegistryType)
    (workspace : Option String) : OutdatedCommandResult :=
  let registry := resolveArgRegistry argReg env
  getOutdatedCommand (some (registry.getD .npm)) workspace

/-- The `check_bundle_size` tool handler. -/
def bundleSizeTool (env : Option String) (packageName : String)
    (version : Option String) (argReg : Option RegistryType)
    (fetched : Except String BundlephobiaData) : BundleSizeInfo :=
  getBundleSize packageName version (resolveArgRegistry argReg env) fetched

/-- The `check_vuln` tool handler. -/
def vulnTool (env : Option String) (packageName : String)
    (argReg : Option RegistryType) (fetched : Except String Bool) :
    VulnerabilityResult :=
  checkVulnerabilities packageName (resolveArgRegistry argReg env) fetched

/-- The `analyze_dependency` tool handler. -/
def analyzeTool (env : Option String) (packageName : String)
    (argReg : Option RegistryType) (fetched : Except String NpmPackageDoc) :
    DependencyAnalysis :=
  analyzeDependencies packageName (resolveArgRegistry argReg env) fetched

/-- The `peer_deps` tool handler. -/
def peerDepsTool (env : Option String) (packageName : String)
    (argReg : Option RegistryType) (fetchedNpm : Except String NpmPackageDoc)
    (fetchedJsrMeta : Except String JsrMeta)
    (fetchedJsrVer : Except String (Option JsrVerData)) : PeerDependencyInfo :=
  getPeerDependencies packageName (resolveArgRegistry argReg env) fetchedNpm
    fetchedJsrMeta fetchedJsrVer

/-- The `dependency_tree` tool handler. -/
def dependencyTreeTool (env : Option String) (packageName : String)
    (version : Option String) (argReg : Option RegistryType)
    (fetched : Except String NpmPackageDoc) : DependencyTree :=
  getDependencyTree packageName version (resolveArgRegistry argReg env) fetched

/-- The `get_cdn_imports` tool handler. -/
def cdnImportsTool (env : Option String) (packageName : String)
    (version : Option String) (argReg : Option RegistryType) : CDNInfo :=
  getCDNImports packageName version (resolveArgRegistry argReg env)

/-- Claim C1: `detectRegistry` is total and evaluates the five detection
rules in fixed priority order, first match wins, agreeing with the
formulation of the specification (`detectRegistrySpec`), and yields the six
documented example results, including the scoped-name ambiguity
`detectRegistry "@myscope/mypkg" = jsr`. -/
theorem claim_C1 :
    (∀ name, detectRegistry name = detectRegistrySpec name) ∧
    detectRegistry "@std/path" = .jsr ∧
    detectRegistry "lodash" = .npm ∧
    detectRegistry "https://deno.land/x/oak" = .deno ∧
    detectRegistry "jsr:@foo/bar" = .jsr ∧
    detectRegistry "npm:left-pad" = .npm ∧
    detectRegistry "@myscope/mypkg" = .jsr := by
  refine ⟨?_, by decide, by decide, by decide, by decide, by decide, by decide⟩
  intro name
  simp only [detectRegistry, detectRegistrySpec]
  rw [detect_cond1, detect_cond2]

/-- Claim C2: `searchAll` returns exactly 3 results tagged npm, jsr,
deno in order, for any combination of per-registry outcomes; each
failure of a registry is captured in its own result (error set, packages
empty) and each element of the returned list is exactly the own search
result of that registry, unaffected by the other two outcomes. -/
theorem claim_C2 :
    ∀ (query : String) (limit : Nat)
      (fn : Except String NpmSearchData) (fj : Except String JsrSearchData)
      (fd : Except String DenoSearchData),
    (searchAll query limit fn fj fd).length = 3 ∧
    (searchAll query limit fn fj fd).map SearchResult.registry =
      [RegistryType.npm, RegistryType.jsr, RegistryType.deno] ∧
    searchAll query limit fn fj fd =
      [searchNpm query limit fn, searchJsr query limit fj, searchDeno query limit fd] ∧
    (∀ e, searchNpm query limit (.error e) =
      { query := query, registry := .npm, packages := [], total := none,
        error := some e }) ∧
    (∀ e, searchJsr query limit (.error e) =
      { query := query, registry := .jsr, packages := [], total := none,
        error := some e }) ∧
    (∀ e, searchDeno query limit (.error e) =
      { query := query, registry := .deno, packages := [], total := none,
        error := some e }) := by
  intro query limit fn fj fd
  refine ⟨rfl, ?_, rfl, fun _ => rfl, fun _ => rfl, fun _ => rfl⟩
  cases fn <;> cases fj <;> cases fd <;> rfl

/-- Claim C6: the install command strings per registry — npm:
`npm install <name>[@version] --save[-dev]`; jsr: `deno add
<name>[@version]` with ` --dev` appended exactly when `dev`; deno:
`deno add <name>[@version]` ignoring `dev` — plus the two documented
concrete examples. -/
theorem claim_C6 :
    (∀ (name : String) (version : Option String) (dev : Bool),
      (getInstallCommand ⟨name, version, some dev, some .npm, none⟩ true).command =
        some ("npm install " ++ name ++ versionSuffix version ++
          (if dev then " --save-dev" else " --save"))) ∧
    (∀ (name : String) (version : Option String) (dev : Bool),
      (getInstallCommand ⟨name, version, some dev, some .jsr, none⟩ true).command =
        some (if dev then "deno add " ++ name ++ versionSuffix version ++ " --dev"
          else "deno add " ++ name ++ versionSuffix version)) ∧
    (∀ (name : String) (version : Option String) (dev : Bool),
      (getInstallCommand ⟨name, version, some dev, some .deno, none⟩ true).command =
        some ("deno add " ++ name ++ versionSuffix version)) ∧
    (getInstallCommand ⟨"lodash", some "4.17.21", some false, some .npm, none⟩
      true).command = some "npm install lodash@4.17.21 --save" ∧
    (getInstallCommand ⟨"@std/path", none, some true, some .jsr, none⟩
      true).command = some "deno add @std/path --dev" := by
  refine ⟨?_, ?_, ?_, by decide, by decide⟩
  · intro name version dev
    cases dev <;> rfl
  · intro name version dev
    cases dev <;> rfl
  · intro name version dev
    rfl

lemma installSwitch_ok (r : RegistryType) (options : InstallOptions) :
    ∃ c, installSwitch r options = .ok c := by
  cases r <;> exact ⟨_, rfl⟩

lemma removeSwitch_ok (r : RegistryType) (packageName : String) :
    ∃ c, removeSwitch r packageName = .ok c := by
  cases r <;> exact ⟨_, rfl⟩

lemma updateSwitch_ok (r : RegistryType) (options : UpdateOptions) :
    ∃ c, updateSwitch r options = .ok c := by
  cases r <;> exact ⟨_, rfl⟩

lemma ciSwitch_ok (r : RegistryType) : ∃ c, ciSwitch r = .ok c := by
  cases r <;> exact ⟨_, rfl⟩

/-- Claim C9: every `RegistryType` value is handled by a labelled arm of
the switch of each builder, so the `Unsupported registry` default arm is
unreachable: `getInstallCommand`, `getRemoveCommand`, `getUpdateCommand`
and `getCiCommand` always return `success = true`, a present command
string, and no error. -/
theorem claim_C9 :
    ∀ (io : InstallOptions) (ro : RemoveOptions) (uo : UpdateOptions)
      (cir : Option RegistryType) (ws : Option String) (a : Bool),
    ((getInstallCommand io a).success = true ∧
      (getInstallCommand io a).command.isSome = true ∧
      (getInstallCommand io a).error = none) ∧
    ((getRemoveCommand ro a).success = true ∧
      (getRemoveCommand ro a).command.isSome = true ∧
      (getRemoveCommand ro a).error = none) ∧
    ((getUpdateCommand uo a).success = true ∧
      (getUpdateCommand uo a).command.isSome = true ∧
      (getUpdateCommand uo a).error = none) ∧
    ((getCiCommand cir ws).success = true ∧
      (getCiCommand cir ws).command.isSome = true ∧
      (getCiCommand cir ws).error = none) := by
  intro io ro uo cir ws a
  refine ⟨?_, ?_, ?_, ?_⟩
  · obtain ⟨c, hc⟩ := installSwitch_ok (resolveRegistry io.registry a io.packageName) io
    simp [getInstallCommand, hc]
  · obtain ⟨c, hc⟩ :=
      removeSwitch_ok (resolveRegistry ro.registry a ro.packageName) ro.packageName
    simp [getRemoveCommand, hc]
  · obtain ⟨c, hc⟩ :=
      updateSwitch_ok (resolveUpdateRegistry uo.registry uo.packageName a) uo
    simp [getUpdateCommand, hc]
  · obtain ⟨c, hc⟩ := ciSwitch_ok (cir.getD .npm)
    simp [getCiCommand, hc]

/-- Claim C5: for registry npm (and unknown) `generateCDNImports` is a
pure function of its arguments returning exactly 10 entries in provider
order unpkg×3, jsdelivr×3, skypack×2, esm.sh×2, whose recommended entry
is the first entry with provider skypack or esm.sh (concretely skypack,
also for the lodash example); the recommendation combinator yields
`undefined` on an empty entry list and the first element of the list when no
entry matches the preferred provider. -/
theorem claim_C5 :
    (∀ (name : String) (version : Option String),
      (generateCDNImports name version (some .npm)).imports.length = 10 ∧
      (generateCDNImports name version (some .npm)).imports.map CDNImport.provider =
        [.unpkg, .unpkg, .unpkg, .jsdelivr, .jsdelivr, .jsdelivr,
         .skypack, .skypack, .esmSh, .esmSh] ∧
      (generateCDNImports name version (some .npm)).recommended =
        (generateCDNImports name version (some .npm)).imports.find?
          (cdnPreferred .npm) ∧
      (generateCDNImports name version (some .npm)).recommended.map
        CDNImport.provider = some .skypack ∧
      (generateCDNImports name version (some .unknown)).imports.map
        CDNImport.provider =
        [.unpkg, .unpkg, .unpkg, .jsdelivr, .jsdelivr, .jsdelivr,
         .skypack, .skypack, .esmSh, .esmSh]) ∧
    (generateCDNImports "lodash" (some "4.17.21") (some .npm)).recommended.map
      CDNImport.provider = some .skypack ∧
    (∀ reg, recommendPick reg [] = none) ∧
    (∀ (reg : RegistryType) (l : List CDNImport),
      l.find? (cdnPreferred reg) = none → recommendPick reg l = l.head?) := by
  refine ⟨fun name version => ⟨rfl, rfl, rfl, rfl, rfl⟩, rfl, fun reg => rfl, ?_⟩
  intro reg l h
  unfold recommendPick
  rw [h]
  rfl

/-- Witness for the no-preferred-match conjunct of claim C5: for a deno-registry
entry list holding only the esm.sh proxy entry (a package name that is not
a deno.land URL), the recommended pick is the first element of the list. -/
theorem claim_C5_witness :
    recommendPick .deno
      [{ provider := .esmSh, url := "https://esm.sh/oak", type := .esm,
         minified := true, description := "Deno package via esm.sh" }] =
      some { provider := .esmSh, url := "https://esm.sh/oak", type := .esm,
             minified := true, description := "Deno package via esm.sh" } :=
  claim_C5.2.2.2 .deno
    [{ provider := .esmSh, url := "https://esm.sh/oak", type := .esm,
       minified := true, description := "Deno package via esm.sh" }] (by decide)

/-- Claim C7: for every input and every fetch outcome of every embedded
operation, whenever the produced result carries an error its substantive
payload fields hold their zero-value defaults — empty package lists and
absent totals, a zero size record, zero dependency counts and empty
largest-dependency lists, empty vulnerability lists with a zero summary,
empty peer-dependency maps, the bare dependency-tree node — with only
the echo fields carrying caller-supplied values; the command builders
never carry an error at all. -/
theorem claim_C7 :
    (∀ (q : String) (l : Nat) (f : Except String NpmSearchData),
      (searchNpm q l f).error.isSome = true →
        (searchNpm q l f).packages = [] ∧ (searchNpm q l f).total = none) ∧
    (∀ (q : String) (l : Nat) (f : Except String JsrSearchData),
      (searchJsr q l f).error.isSome = true →
        (searchJsr q l f).packages = [] ∧ (searchJsr q l f).total = none) ∧
    (∀ (q : String) (l : Nat) (f : Except String DenoSearchData),
      (searchDeno q l f).error.isSome = true →
        (searchDeno q l f).packages = [] ∧ (searchDeno q l f).total = none) ∧
    (∀ (name : String) (v : Option String) (f : Except String BundlephobiaData),
      (getNpmBundleSize name v f).error.isSome = true →
        (getNpmBundleSize name v f).size =
          { minified := 0, minifiedGzipped := 0, minifiedBrotli := none }) ∧
    (∀ (name : String) (v : Option String) (reg : Option RegistryType)
        (f : Except String BundlephobiaData),
      (getBundleSize name v reg f).error.isSome = true →
        (getBundleSize name v reg f).size =
          { minified := 0, minifiedGzipped := 0, minifiedBrotli := none }) ∧
    (∀ (name : String) (reg : Option RegistryType)
        (f : Except String NpmPackageDoc),
      (analyzeDependencies name reg f).error.isSome = true →
        (analyzeDependencies name reg f).totalDependencies = 0 ∧
        (analyzeDependencies name reg f).directDependencies = 0 ∧
        (analyzeDependencies name reg f).devDependencies = 0 ∧
        (analyzeDependencies name reg f).peerDependencies = 0 ∧
        (analyzeDependencies name reg f).optionalDependencies = 0 ∧
        (analyzeDependencies name reg f).largestDependencies = []) ∧
    (∀ (name : String) (f : Except String Bool),
      (checkNpmVulnerabilities name f).error.isSome = true →
        (checkNpmVulnerabilities name f).vulnerabilities = [] ∧
        (checkNpmVulnerabilities name f).summary =
          { total := 0, critical := 0, high := 0, moderate := 0, low := 0 }) ∧
    (∀ (name : String) (reg : Option RegistryType) (f : Except String Bool),
      (checkVulnerabilities name reg f).error.isSome = true →
        (checkVulnerabilities name reg f).vulnerabilities = [] ∧
        (checkVulnerabilities name reg f).summary =
          { total := 0, critical := 0, high := 0, moderate := 0, low := 0 }) ∧
    (∀ (name : String) (reg : Option RegistryType)
        (fn : Except String NpmPackageDoc) (fjm : Except String JsrMeta)
        (fjv : Except String (Option JsrVerData)),
      (getPeerDependencies name reg fn fjm fjv).error.isSome = true →
        (getPeerDependencies name reg fn fjm fjv).peerDependencies = []) ∧
    (∀ (name : String) (v : Option String) (f : Except String NpmPackageDoc),
      (getNpmDependencyTree name v f).error.isSome = true →
        (getNpmDependencyTree name v f).tree = bareNode name v) ∧
    (∀ (name : String) (v : Option String) (reg : Option RegistryType)
        (f : Except String NpmPackageDoc),
      (getDependencyTree name v reg f).error.isSome = true →
        (getDependencyTree name v reg f).tree = bareNode name v) ∧
    (∀ (io : InstallOptions) (ro : RemoveOptions) (uo : UpdateOptions)
        (cir : Option RegistryType) (ws : Option String) (a : Bool),
      (getInstallCommand io a).error = none ∧
      (getRemoveCommand ro a).error = none ∧
      (getUpdateCommand uo a).error = none ∧
      (getCiCommand cir ws).error = none) := by
  refine ⟨?_, ?_, ?_, ?_, ?_, ?_, ?_, ?_, ?_, ?_, ?_, ?_⟩
  · intro q l f
    cases f with
    | ok d => simp [searchNpm]
    | error e => exact fun _ => ⟨rfl, rfl⟩
  · intro q l f
    cases f with
    | ok d => simp [searchJsr]
    | error e => exact fun _ => ⟨rfl, rfl⟩
  · intro q l f
    cases f with
    | ok d => simp [searchDeno]
    | error e => exact fun _ => ⟨rfl, rfl⟩
  · intro name v f
    cases f with
    | ok d => simp [getNpmBundleSize]
    | error e => exact fun _ => rfl
  · intro name v reg f
    simp only [getBundleSize]
    cases hreg : reg.getD (detectRegistry name) with
    | npm =>
      cases f with
      | ok d => simp [getNpmBundleSize]
      | error e => exact fun _ => rfl
    | unknown =>
      cases f with
      | ok d => simp [getNpmBundleSize]
      | error e => exact fun _ => rfl
    | jsr => exact fun _ => rfl
    | deno => exact fun _ => rfl
  · intro name reg f
    simp only [analyzeDependencies]
    by_cases h : reg.getD (detectRegistry name) = RegistryType.npm ∨
        reg.getD (detectRegistry name) = RegistryType.unknown
    · simp only [if_pos h]
      cases f with
      | error e => exact fun _ => ⟨rfl, rfl, rfl, rfl, rfl, rfl⟩
      | ok data =>
        cases hl : lookupVersion data (latestVersionKey data) with
        | some vd => simp [hl]
        | none => simp [hl, zeroAnalysis]
    · simp [if_neg h, zeroAnalysis]
  · intro name f
    cases f with
    | ok b =>
      cases b with
      | true => simp [checkNpmVulnerabilities]
      | false => exact fun _ => ⟨rfl, rfl⟩
    | error e => exact fun _ => ⟨rfl, rfl⟩
  · intro name reg f
    simp only [checkVulnerabilities]
    cases hreg : reg.getD (detectRegistry name) with
    | npm =>
      cases f with
      | ok b =>
        cases b with
        | true => simp [checkNpmVulnerabilities]
        | false => exact fun _ => ⟨rfl, rfl⟩
      | error e => exact fun _ => ⟨rfl, rfl⟩
    | unknown =>
      cases f with
      | ok b =>
        cases b with
        | true => simp [checkNpmVulnerabilities]
        | false => exact fun _ => ⟨rfl, rfl⟩
      | error e => exact fun _ => ⟨rfl, rfl⟩
    | jsr => simp
    | deno => simp
  · intro name reg fn fjm fjv
    simp only [getPeerDependencies]
    by_cases h1 : reg.getD (detectRegistry name) = RegistryType.npm ∨
        reg.getD (detectRegistry name) = RegistryType.unknown
    · simp only [if_pos h1]
      cases fn with
      | error e => exact fun _ => rfl
      | ok data =>
        cases hl : lookupVersion data (latestVersionKey data) with
        | some vd => simp [hl]
        | none => simp [hl]
    · simp only [if_neg h1]
      by_cases h2 : reg.getD (detectRegistry name) = RegistryType.jsr
      · simp only [if_pos h2]
        cases fjm with
        | error e => exact fun _ => rfl
        | ok meta =>
          cases fjv with
          | error e => exact fun _ => rfl
          | ok ov =>
            cases ov with
            | none => simp
            | some vd => simp
      · simp [if_neg h2]
  · intro name v f
    cases f with
    | error e => exact fun _ => rfl
    | ok data =>
      simp only [getNpmDependencyTree]
      cases hl : lookupVersion data (jsOrStr v (latestVersionKey data)) with
      | some vd => simp [hl]
      | none => simp [hl]
  · intro name v reg f
    simp only [getDependencyTree]
    cases hreg : reg.getD (detectRegistry name) with
    | npm =>
      cases f with
      | error e => exact fun _ => rfl
      | ok data =>
        simp only [getNpmDependencyTree]
        cases hl : lookupVersion data (jsOrStr v (latestVersionKey data)) with
        | some vd => simp [hl]
        | none => simp [hl]
    | unknown =>
      cases f with
      | error e => exact fun _ => rfl
      | ok data =>
        simp only [getNpmDependencyTree]
        cases hl : lookupVersion data (jsOrStr v (latestVersionKey data)) with
        | some vd => simp [hl]
        | none => simp [hl]
    | jsr => exact fun _ => rfl
    | deno => exact fun _ => rfl
  · intro io ro uo cir ws a
    obtain ⟨ci, hci⟩ := installSwitch_ok (resolveRegistry io.registry a io.packageName) io
    obtain ⟨cr, hcr⟩ :=
      removeSwitch_ok (resolveRegistry ro.registry a ro.packageName) ro.packageName
    obtain ⟨cu, hcu⟩ := updateSwitch_ok (resolveUpdateRegistry uo.registry uo.packageName a) uo
    obtain ⟨cc, hcc⟩ := ciSwitch_ok (cir.getD .npm)
    exact ⟨by simp [getInstallCommand, hci], by simp [getRemoveCommand, hcr],
      by simp [getUpdateCommand, hcu], by simp [getCiCommand, hcc]⟩

/-- Witness for claim C7: each error-implication instantiated at a
concrete error-present result — failed fetches for the three searches,
the bundlephobia and npm tree fetches, the deno bundle-size stub, the
undefined-version-lookup path of the dependency analysis (empty
`versions` map), the not-ok `Package not found` vulnerability response,
the jsr-branch metadata failure of the peer-dependency lookup, and the
deno dependency-tree stub. -/
theorem claim_C7_witness :
    ((searchNpm "q" 20 (.error "boom")).packages = [] ∧
      (searchNpm "q" 20 (.error "boom")).total = none) ∧
    ((searchJsr "q" 20 (.error "boom")).packages = [] ∧
      (searchJsr "q" 20 (.error "boom")).total = none) ∧
    ((searchDeno "q" 20 (.error "boom")).packages = [] ∧
      (searchDeno "q" 20 (.error "boom")).total = none) ∧
    (getNpmBundleSize "lodash" none (.error "boom")).size =
      { minified := 0, minifiedGzipped := 0, minifiedBrotli := none } ∧
    (getBundleSize "oak" none (some .deno) (.error "boom")).size =
      { minified := 0, minifiedGzipped := 0, minifiedBrotli := none } ∧
    ((analyzeDependencies "lodash" (some .npm)
        (.ok { distTagLatest := none, versions := [] })).totalDependencies = 0 ∧
      (analyzeDependencies "lodash" (some .npm)
        (.ok { distTagLatest := none, versions := [] })).directDependencies = 0 ∧
      (analyzeDependencies "lodash" (some .npm)
        (.ok { distTagLatest := none, versions := [] })).devDependencies = 0 ∧
      (analyzeDependencies "lodash" (some .npm)
        (.ok { distTagLatest := none, versions := [] })).peerDependencies = 0 ∧
      (analyzeDependencies "lodash" (some .npm)
        (.ok { distTagLatest := none, versions := [] })).optionalDependencies = 0 ∧
      (analyzeDependencies "lodash" (some .npm)
        (.ok { distTagLatest := none, versions := [] })).largestDependencies = []) ∧
    ((checkNpmVulnerabilities "left-pad" (.ok false)).vulnerabilities = [] ∧
      (checkNpmVulnerabilities "left-pad" (.ok false)).summary =
        { total := 0, critical := 0, high := 0, moderate := 0, low := 0 }) ∧
    ((checkVulnerabilities "left-pad" (some .npm) (.ok false)).vulnerabilities = [] ∧
      (checkVulnerabilities "left-pad" (some .npm) (.ok false)).summary =
        { total := 0, critical := 0, high := 0, moderate := 0, low := 0 }) ∧
    (getPeerDependencies "pkg" (some .jsr) (.error "x") (.error "boom")
      (.error "boom")).peerDependencies = [] ∧
    (getNpmDependencyTree "x" none (.error "boom")).tree = bareNode "x" none ∧
    (getDependencyTree "x" none (some .deno) (.error "boom")).tree =
      bareNode "x" none :=
  ⟨claim_C7.1 "q" 20 (.error "boom") rfl,
   claim_C7.2.1 "q" 20 (.error "boom") rfl,
   claim_C7.2.2.1 "q" 20 (.error "boom") rfl,
   claim_C7.2.2.2.1 "lodash" none (.error "boom") rfl,
   claim_C7.2.2.2.2.1 "oak" none (some .deno) (.error "boom") rfl,
   claim_C7.2.2.2.2.2.1 "lodash" (some .npm)
     (.ok { distTagLatest := none, versions := [] }) rfl,
   claim_C7.2.2.2.2.2.2.1 "left-pad" (.ok false) rfl,
   claim_C7.2.2.2.2.2.2.2.1 "left-pad" (some .npm) (.ok false) rfl,
   claim_C7.2.2.2.2.2.2.2.2.1 "pkg" (some .jsr) (.error "x") (.error "boom")
     (.error "boom") rfl,
   claim_C7.2.2.2.2.2.2.2.2.2.1 "x" none (.error "boom") rfl,
   claim_C7.2.2.2.2.2.2.2.2.2.2.1 "x" none (some .deno) (.error "boom") rfl⟩

/-- Claim C8: `totalDependencies` always equals the sum of the four
per-kind counts; on the successful npm path each count is the number of
first-level entries of the corresponding map of the fetched latest
version document (no recursion); non-npm registries get all counts zero
with an explanatory error. -/
theorem claim_C8 :
    (∀ (name : String) (reg : Option RegistryType)
        (f : Except String NpmPackageDoc),
      (analyzeDependencies name reg f).totalDependencies =
        (analyzeDependencies name reg f).directDependencies +
        (analyzeDependencies name reg f).devDependencies +
        (analyzeDependencies name reg f).peerDependencies +
        (analyzeDependencies name reg f).optionalDependencies) ∧
    (∀ (name lv : String) (vd : NpmVersionData),
      analyzeDependencies name (some .npm)
          (.ok { distTagLatest := none, versions := [(lv, vd)] }) =
        { package := name, registry := .npm,
          totalDependencies := (vd.dependencies.getD []).length +
            (vd.devDependencies.getD []).length +
            (vd.peerDependencies.getD []).length +
            (vd.optionalDependencies.getD []).length,
          directDependencies := (vd.dependencies.getD []).length,
          devDependencies := (vd.devDependencies.getD []).length,
          peerDependencies := (vd.peerDependencies.getD []).length,
          optionalDependencies := (vd.optionalDependencies.getD []).length,
          hasVulnerabilities := false, largestDependencies := [],
          error := none }) ∧
    (∀ (name : String) (f : Except String NpmPackageDoc),
      analyzeDependencies name (some .jsr) f =
        { package := name, registry := .jsr, totalDependencies := 0,
          directDependencies := 0, devDependencies := 0, peerDependencies := 0,
          optionalDependencies := 0, hasVulnerabilities := false,
          largestDependencies := [],
          error := some "Dependency analysis not fully supported for jsr" }) ∧
    (∀ (name : String) (f : Except String NpmPackageDoc),
      analyzeDependencies name (some .deno) f =
        { package := name, registry := .deno, totalDependencies := 0,
          directDependencies := 0, devDependencies := 0, peerDependencies := 0,
          optionalDependencies := 0, hasVulnerabilities := false,
          largestDependencies := [],
          error := some "Dependency analysis not fully supported for deno" }) := by
  refine ⟨?_, ?_, fun name f => rfl, fun name f => rfl⟩
  · intro name reg f
    simp only [analyzeDependencies]
    by_cases h : reg.getD (detectRegistry name) = RegistryType.npm ∨
        reg.getD (detectRegistry name) = RegistryType.unknown
    · simp only [if_pos h]
      cases f with
      | error e => rfl
      | ok data =>
        cases hl : lookupVersion data (latestVersionKey data) with
        | none => simp [hl, zeroAnalysis]
        | some vd => simp [hl]
    · simp [if_neg h, zeroAnalysis]
  · intro name lv vd
    simp [analyzeDependencies, latestVersionKey, lookupVersion, jsOrStr,
      List.lookup]

/-- Claim C10: the unit table of `formatSize` holds only B, KB, MB, GB, so for
`0 < b < 1024^4` the result is the value scaled by
`1024 ^ Nat.log 1024 b` rendered with two decimals followed by a unit
from the table (with `formatSize 0 = "0 B"` and
`formatSize 1024 = "1.00 KB"`), while for `b ≥ 1024^4` the unit index
exceeds the table and the unit renders as `"undefined"`. -/
theorem claim_C10 :
    (∀ b : Nat, 0 < b → b < 1024 ^ 4 →
      Nat.log 1024 b < sizeUnits.length ∧
      sizeUnits.getD (Nat.log 1024 b) "undefined" ∈ sizeUnits ∧
      formatSize b = toFixed2 ((b : ℚ) / 1024 ^ Nat.log 1024 b) ++ " " ++
        sizeUnits.getD (Nat.log 1024 b) "undefined") ∧
    formatSize 0 = "0 B" ∧
    formatSize 1024 = "1.00 KB" ∧
    (∀ b : Nat, 1024 ^ 4 ≤ b →
      formatSize b = toFixed2 ((b : ℚ) / 1024 ^ Nat.log 1024 b) ++ " " ++
        "undefined") := by
  refine ⟨?_, rfl, ?_, ?_⟩
  · intro b hb hlt
    have hbne : b ≠ 0 := by omega
    have hlog : Nat.log 1024 b < 4 := Nat.log_lt_of_lt_pow hbne hlt
    refine ⟨by simpa [sizeUnits] using hlog, ?_, by simp [formatSize, hbne]⟩
    set i := Nat.log 1024 b with hidef
    interval_cases i <;> decide
  · have hlog1 : Nat.log 1024 1024 = 1 :=
      Nat.log_eq_of_pow_le_of_lt_pow (by norm_num) (by norm_num)
    have h0 : ¬ (1024 = 0) := by norm_num
    simp only [formatSize, if_neg h0, hlog1]
    have hq : ((1024 : ℕ) : ℚ) / 1024 ^ (1 : ℕ) = 1 := by norm_num
    rw [hq]
    have hfloor : ⌊(1 : ℚ) * 100 + 1 / 2⌋ = (100 : ℤ) := by
      apply Int.floor_eq_iff.mpr
      constructor <;> norm_num
    simp only [toFixed2, hfloor]
    rfl
  · intro b hb
    have hbne : b ≠ 0 := by
      have h4 : (0 : ℕ) < 1024 ^ 4 := by norm_num
      omega
    have hlog4 : 4 ≤ Nat.log 1024 b :=
      (Nat.pow_le_iff_le_log (by norm_num) hbne).mp hb
    have hgetD : sizeUnits.getD (Nat.log 1024 b) "undefined" = "undefined" :=
      List.getD_eq_default _ _ (by simpa [sizeUnits] using hlog4)
    simp only [formatSize, if_neg hbne]
    rw [hgetD]

/-- Witness for claim C10: the in-range clause instantiated at
`b = 500000` and the out-of-range clause at `b = 1024^4` (1 TB), with the
hypotheses discharged numerically. -/
theorem claim_C10_witness :
    (Nat.log 1024 500000 < sizeUnits.length ∧
     sizeUnits.getD (Nat.log 1024 500000) "undefined" ∈ sizeUnits ∧
     formatSize 500000 =
       toFixed2 ((500000 : ℚ) / 1024 ^ Nat.log 1024 500000) ++ " " ++
         sizeUnits.getD (Nat.log 1024 500000) "undefined") ∧
    formatSize (1024 ^ 4) =
      toFixed2 (((1024 ^ 4 : ℕ) : ℚ) / 1024 ^ Nat.log 1024 (1024 ^ 4)) ++ " " ++
        "undefined" :=
  ⟨claim_C10.1 500000 (by norm_num) (by norm_num),
   claim_C10.2.2.2 (1024 ^ 4) (le_refl _)⟩

/-! ### Registry-propagation lemmas for the tool handlers -/

lemma parseRegistryName_ne_unknown (s : String) :
    parseRegistryName s ≠ some .unknown := by
  unfold parseRegistryName
  split_ifs <;> simp

lemma getDefaultRegistry_ne_unknown (env : Option String) :
    getDefaultRegistry env ≠ some .unknown := by
  unfold getDefaultRegistry
  cases env with
  | none => simp
  | some s =>
    simp only []
    split_ifs with h
    · exact parseRegistryName_ne_unknown (toLowerStr s)
    · simp

lemma resolveArgRegistry_none (env : Option String) :
    resolveArgRegistry none env = getDefaultRegistry env := rfl

lemma getInstallCommand_registry (name : String) (v : Option String)
    (dev : Option Bool) (ws : Option String) (a : Bool) (r : RegistryType) :
    (getInstallCommand ⟨name, v, dev, some r, ws⟩ a).registry = r := by
  cases r <;> rfl

lemma getRemoveCommand_registry (name : String) (ws : Option String) (a : Bool)
    (r : RegistryType) :
    (getRemoveCommand ⟨name, some r, ws⟩ a).registry = r := by
  cases r <;> rfl

lemma getUpdateCommand_registry (pn : Option String) (lat : Option Bool)
    (ws : Option String) (a : Bool) (r : RegistryType) :
    (getUpdateCommand ⟨pn, some r, ws, lat⟩ a).registry = r := by
  cases r <;> rfl

lemma getCiCommand_registry (ws : Option String) (r : RegistryType) :
    (getCiCommand (some r) ws).registry = r := by
  cases r <;> rfl

lemma getBundleSize_registry (name : String) (v : Option String)
    (f : Except String BundlephobiaData) (r : RegistryType) (hr : r ≠ .unknown) :
    (getBundleSize name v (some r) f).registry = r := by
  cases r with
  | npm => cases f <;> rfl
  | jsr => rfl
  | deno => rfl
  | unknown => exact absurd rfl hr

lemma checkVulnerabilities_registry (name : String) (f : Except String Bool)
    (r : RegistryType) (hr : r ≠ .unknown) :
    (checkVulnerabilities name (some r) f).registry = r := by
  cases r with
  | npm =>
    cases f with
    | ok b => cases b <;> rfl
    | error e => rfl
  | jsr => rfl
  | deno => rfl
  | unknown => exact absurd rfl hr

lemma analyzeDependencies_registry (name : String)
    (f : Except String NpmPackageDoc) (r : RegistryType) (hr : r ≠ .unknown) :
    (analyzeDependencies name (some r) f).registry = r := by
  cases r with
  | npm =>
    cases f with
    | error e => rfl
    | ok data =>
      simp only [analyzeDependencies]
      cases hl : lookupVersion data (latestVersionKey data) <;>
        simp [hl, zeroAnalysis]
  | jsr => rfl
  | deno => rfl
  | unknown => exact absurd rfl hr

lemma getPeerDependencies_registry (name : String)
    (fn : Except String NpmPackageDoc) (fjm : Except String JsrMeta)
    (fjv : Except String (Option JsrVerData)) (r : RegistryType)
    (hr : r ≠ .unknown) :
    (getPeerDependencies name (some r) fn fjm fjv).registry = r := by
  cases r with
  | npm =>
    cases fn with
    | error e => rfl
    | ok data =>
      simp only [getPeerDependencies]
      cases hl : lookupVersion data (latestVersionKey data) <;> simp [hl]
  | jsr =>
    cases fjm with
    | error e => rfl
    | ok meta =>
      cases fjv with
      | error e => rfl
      | ok vd => cases vd <;> rfl
  | deno => rfl
  | unknown => exact absurd rfl hr

lemma getDependencyTree_registry (name : String) (v : Option String)
    (f : Except String NpmPackageDoc) (r : RegistryType) (hr : r ≠ .unknown) :
    (getDependencyTree name v (some r) f).registry = r := by
  cases r with
  | npm =>
    cases f with
    | error e => rfl
    | ok data =>
      simp only [getDependencyTree, getNpmDependencyTree]
      cases hl : lookupVersion data (jsOrStr v (latestVersionKey data)) <;>
        simp [hl]
  | jsr => rfl
  | deno => rfl
  | unknown => exact absurd rfl hr

/-- Counterexample to claim C3 as stated: with the default-registry
setting present and valid (`deno`), the `search_packages` tool call —
which has no registry argument, hence always omits it — still uses
auto-detection: for query `lodash` the npm registry is searched, not the
configured deno default. -/
theorem claim_C3_counterexample :
    getDefaultRegistry (some "deno") = some .deno ∧
    (searchPackagesTool (some "deno") "lodash" 20 (.error "net")
        (.error "net") (.error "net")).registry = .npm ∧
    RegistryType.npm ≠ .deno := by
  refine ⟨by decide, by decide, by decide⟩

/-- Claim C3 as amended: when a tool call omits the registry argument and
the environment default is set and valid, the default is the registry
used by every registry-threading tool (install, remove, update, ci,
check_outdated, check_bundle_size, check_vuln, analyze_dependency,
peer_deps, dependency_tree, get_cdn_imports) — but not by the search
tools: `search_packages` never consults the default and always
auto-detects from the query. -/
theorem claim_C3_amended :
    ∀ (env : Option String) (r : RegistryType),
      getDefaultRegistry env = some r →
      ∀ (name : String) (v : Option String) (dev lat : Option Bool)
        (pn : Option String) (ws : Option String)
        (fb : Except String BundlephobiaData) (fv : Except String Bool)
        (fd : Except String NpmPackageDoc) (fjm : Except String JsrMeta)
        (fjv : Except String (Option JsrVerData)),
      (installTool env name v dev none ws).registry = r ∧
      (removeTool env name none ws).registry = r ∧
      (updateTool env pn none lat ws).registry = r ∧
      (ciTool env none ws).registry = r ∧
      (outdatedTool env none ws).registry = r ∧
      (bundleSizeTool env name v none fb).registry = r ∧
      (vulnTool env name none fv).registry = r ∧
      (analyzeTool env name none fd).registry = r ∧
      (peerDepsTool env name none fd fjm fjv).registry = r ∧
      (dependencyTreeTool env name v none fd).registry = r ∧
      (cdnImportsTool env name v none).registry = r ∧
      (∀ (q : String) (l : Nat) (fn : Except String NpmSearchData)
          (fj : Except String JsrSearchData) (fdn : Except String DenoSearchData),
        searchPackagesTool env q l fn fj fdn = search q l none fn fj fdn) := by
  intro env r h name v dev lat pn ws fb fv fd fjm fjv
  have hres : resolveArgRegistry none env = some r := by
    rw [resolveArgRegistry_none, h]
  have hr : r ≠ .unknown := by
    intro hu
    exact getDefaultRegistry_ne_unknown env (by rw [h, hu])
  refine ⟨?_, ?_, ?_, ?_, ?_, ?_, ?_, ?_, ?_, ?_, ?_, fun q l fn fj fdn => rfl⟩
  · simpa [installTool, hres] using getInstallCommand_registry name v dev ws false r
  · simpa [removeTool, hres] using getRemoveCommand_registry name ws false r
  · simpa [updateTool, hres] using getUpdateCommand_registry pn lat ws false r
  · simpa [ciTool, hres] using getCiCommand_registry ws r
  · simp only [outdatedTool, hres]
    cases r <;> rfl
  · simpa [bundleSizeTool, hres] using getBundleSize_registry name v fb r hr
  · simpa [vulnTool, hres] using checkVulnerabilities_registry name fv r hr
  · simpa [analyzeTool, hres] using analyzeDependencies_registry name fd r hr
  · simpa [peerDepsTool, hres] using getPeerDependencies_registry name fd fjm fjv r hr
  · simpa [dependencyTreeTool, hres] using getDependencyTree_registry name v fd r hr
  · simp [cdnImportsTool, getCDNImports, generateCDNImports, hres]

/-- Witness for claim C3 as amended: instantiated with the valid setting
value `jsr`, package `left-pad`, and erroring fetch oracles. -/
theorem claim_C3_amended_witness :
    (installTool (some "jsr") "left-pad" none none none none).registry = .jsr ∧
    (bundleSizeTool (some "jsr") "left-pad" none none (.error "net")).registry =
      .jsr :=
  have h := claim_C3_amended (some "jsr") .jsr (by decide) "left-pad" none none
    none none none (.error "net") (.error "net") (.error "net") (.error "net")
    (.error "net")
  ⟨h.1, h.2.2.2.2.2.1⟩

/-- Counterexample to claim C4 as stated: passing `unknown` does not
produce a result identical to passing `npm`.  `getRegistryInfo` has a
dedicated `unknown` catalog entry (name `Unknown`, not the npm entry), and
the command builders echo the passed registry in the `registry` and
`message` fields. -/
theorem claim_C4_counterexample :
    getRegistryInfo .unknown ≠ getRegistryInfo .npm ∧
    (getRegistryInfo .unknown).name = "Unknown" ∧
    (getRegistryInfo .npm).name = "npm" ∧
    (getInstallCommand ⟨"lodash", none, none, some .unknown, none⟩ true).registry ≠
      (getInstallCommand ⟨"lodash", none, none, some .npm, none⟩ true).registry ∧
    (getInstallCommand ⟨"lodash", none, none, some .unknown, none⟩ true).message ≠
      (getInstallCommand ⟨"lodash", none, none, some .npm, none⟩ true).message := by
  refine ⟨?_, rfl, rfl, by decide, by decide⟩
  intro hEq
  exact absurd (congrArg RegistryInfo.name hEq) (by decide)

/-- Claim C4 as amended: `unknown` is routed to the npm branch everywhere a
registry-specific branch exists, so the substantive outputs coincide
with those of npm — the dispatched search, the full bundle-size, vulnerability
and dependency-tree results, the generated command strings and success
flags, the CDN import list and recommended pick, and the dependency
analysis and peer-dependency payload fields — while the echo fields
(`registry`, `message`) carry the passed registry, and `getRegistryInfo`
maps `unknown` to its own catalog entry with name `Unknown` and empty
URLs rather than the npm entry. -/
theorem claim_C4_amended :
    (∀ (q : String) (l : Nat) (fn : Except String NpmSearchData)
        (fj : Except String JsrSearchData) (fd : Except String DenoSearchData),
      search q l (some .unknown) fn fj fd = search q l (some .npm) fn fj fd) ∧
    (∀ (name : String) (v : Option String) (dev : Option Bool)
        (ws : Option String) (a : Bool),
      (getInstallCommand ⟨name, v, dev, some .unknown, ws⟩ a).command =
        (getInstallCommand ⟨name, v, dev, some .npm, ws⟩ a).command ∧
      (getInstallCommand ⟨name, v, dev, some .unknown, ws⟩ a).success =
        (getInstallCommand ⟨name, v, dev, some .npm, ws⟩ a).success) ∧
    (∀ (name : String) (ws : Option String) (a : Bool),
      (getRemoveCommand ⟨name, some .unknown, ws⟩ a).command =
        (getRemoveCommand ⟨name, some .npm, ws⟩ a).command) ∧
    (∀ (pn : Option String) (lat : Option Bool) (ws : Option String) (a : Bool),
      (getUpdateCommand ⟨pn, some .unknown, ws, lat⟩ a).command =
        (getUpdateCommand ⟨pn, some .npm, ws, lat⟩ a).command) ∧
    (∀ ws, (getCiCommand (some .unknown) ws).command =
      (getCiCommand (some .npm) ws).command) ∧
    (∀ ws, (getOutdatedCommand (some .unknown) ws).command =
      (getOutdatedCommand (some .npm) ws).command) ∧
    (∀ (name : String) (v : Option String) (f : Except String BundlephobiaData),
      getBundleSize name v (some .unknown) f = getBundleSize name v (some .npm) f) ∧
    (∀ (name : String) (f : Except String Bool),
      checkVulnerabilities name (some .unknown) f =
        checkVulnerabilities name (some .npm) f) ∧
    (∀ (name : String) (v : Option String) (f : Except String NpmPackageDoc),
      getDependencyTree name v (some .unknown) f =
        getDependencyTree name v (some .npm) f) ∧
    (∀ (name : String) (v : Option String),
      (generateCDNImports name v (some .unknown)).imports =
        (generateCDNImports name v (some .npm)).imports ∧
      (generateCDNImports name v (some .unknown)).recommended =
        (generateCDNImports name v (some .npm)).recommended) ∧
    (∀ (name : String) (f : Except String NpmPackageDoc),
      (analyzeDependencies name (some .unknown) f).package =
        (analyzeDependencies name (some .npm) f).package ∧
      (analyzeDependencies name (some .unknown) f).totalDependencies =
        (analyzeDependencies name (some .npm) f).totalDependencies ∧
      (analyzeDependencies name (some .unknown) f).directDependencies =
        (analyzeDependencies name (some .npm) f).directDependencies ∧
      (analyzeDependencies name (some .unknown) f).devDependencies =
        (analyzeDependencies name (some .npm) f).devDependencies ∧
      (analyzeDependencies name (some .unknown) f).peerDependencies =
        (analyzeDependencies name (some .npm) f).peerDependencies ∧
      (analyzeDependencies name (some .unknown) f).optionalDependencies =
        (analyzeDependencies name (some .npm) f).optionalDependencies ∧
      (analyzeDependencies name (some .unknown) f).error =
        (analyzeDependencies name (some .npm) f).error) ∧
    (∀ (name : String) (fn : Except String NpmPackageDoc)
        (fjm : Except String JsrMeta) (fjv : Except String (Option JsrVerData)),
      (getPeerDependencies name (some .unknown) fn fjm fjv).package =
        (getPeerDependencies name (some .npm) fn fjm fjv).package ∧
      (getPeerDependencies name (some .unknown) fn fjm fjv).peerDependencies =
        (getPeerDependencies name (some .npm) fn fjm fjv).peerDependencies ∧
      (getPeerDependencies name (some .unknown) fn fjm fjv).error =
        (getPeerDependencies name (some .npm) fn fjm fjv).error) ∧
    ((getRegistryInfo .unknown).name = "Unknown" ∧
      (getRegistryInfo .unknown).url = "" ∧
      (getRegistryInfo .unknown).searchUrl = "") := by
  refine ⟨fun q l fn fj fd => rfl, fun name v dev ws a => ⟨rfl, rfl⟩,
    fun name ws a => rfl, fun pn lat ws a => rfl, fun ws => rfl, fun ws => rfl,
    fun name v f => rfl, fun name f => rfl, fun name v f => rfl,
    fun name v => ⟨rfl, rfl⟩, ?_, ?_, ⟨rfl, rfl, rfl⟩⟩
  · intro name f
    cases f with
    | error e => exact ⟨rfl, rfl, rfl, rfl, rfl, rfl, rfl⟩
    | ok data =>
      simp only [analyzeDependencies]
      cases hl : lookupVersion data (latestVersionKey data) <;>
        simp [hl, zeroAnalysis]
  · intro name fn fjm fjv
    cases fn with
    | error e => exact ⟨rfl, rfl, rfl⟩
    | ok data =>
      simp only [getPeerDependencies]
      cases hl : lookupVersion data (latestVersionKey data) <;> simp [hl]

end RegistryMcp
